import Mathlib

/-!
A verification development for the ReSpecTh-to-ChemKED conversion pipeline
(`pyked/converters.py`).  The Python functions are shallowly embedded as
executable Lean definitions: fallible code returns `Except PyErr`, Python
dictionaries are association lists whose assignment appends a binding and
whose lookup returns the latest binding, and Python exception classes are
the constructors of `PyErr`.
-/

/-- The Python exception taxonomy of `converters.py`, together with the
built-in Python exceptions that the module can let escape.  `keywordError`,
`missingElement`, `missingAttribute`, `undefinedKeyword` mirror the module's
own `KeywordError` hierarchy; `notImplemented` mirrors `NotImplementedError`;
the remaining constructors mirror built-in exceptions (`AttributeError`,
`KeyError`, `AssertionError`, `NameError`, `TypeError`, `ValueError`,
`IndexError`) raised by the interpreter. -/
inductive PyErr where
  | keywordError : String → PyErr
  | missingElement : String → PyErr
  | missingAttribute : String → PyErr
  | undefinedKeyword : String → PyErr
  | notImplemented : String → PyErr
  | attributeError : PyErr
  | keyError : String → PyErr
  | assertionError : PyErr
  | nameError : String → PyErr
  | typeError : PyErr
  | valueError : PyErr
  | indexError : PyErr
deriving Repr, DecidableEq

/-- Python dictionary lookup on an association-list model: the latest
binding of a key wins, which matches `d[k]`/`d.get(k)` after a sequence of
assignments modelled by `pySet`. -/
def pyGet {α : Type} (d : List (String × α)) (k : String) : Option α :=
  d.foldl (fun acc p => if p.1 = k then some p.2 else acc) none

/-- Python dictionary assignment `d[k] = v` on the association-list model:
append the new binding; `pyGet` then sees it as the current value. -/
def pySet {α : Type} (d : List (String × α)) (k : String) (v : α) :
    List (String × α) :=
  d ++ [(k, v)]

/-- Membership `k in d` for the association-list dictionary. -/
def pyHasKey {α : Type} (d : List (String × α)) (k : String) : Bool :=
  (pyGet d k).isSome

/-- Python `str.rstrip(';')`: remove every trailing semicolon. -/
def pyRstripSemi (s : String) : String :=
  ⟨(s.data.reverse.dropWhile (fun c => c = ';')).reverse⟩

/-- Python `str.upper()` (ASCII, which covers every string the converter handles). -/
def pyUpper (s : String) : String :=
  ⟨s.data.map Char.toUpper⟩

/-- Python `str.split(sep)` for a one-character separator, as a structural
recursion on the character list: `"".split(';') = [""]`,
`";".split(';') = ["", ""]`. -/
def pySplitChar (c : Char) : List Char → List (List Char)
  | [] => [[]]
  | x :: xs =>
    let r := pySplitChar c xs
    if x = c then [] :: r
    else
      match r with
      | [] => [[x]]
      | y :: ys => (x :: y) :: ys

/-- The number of fields `s.split(';')` produces. -/
def pySplitSemiCount (s : String) : Nat :=
  (pySplitChar ';' s.data).length

instance {ε α : Type} [DecidableEq ε] [DecidableEq α] :
    DecidableEq (Except ε α) := fun x y =>
  match x, y with
  | .ok a, .ok b =>
    if h : a = b then isTrue (by rw [h]) else isFalse (by simp [h])
  | .error a, .error b =>
    if h : a = b then isTrue (by rw [h]) else isFalse (by simp [h])
  | .ok _, .error _ => isFalse (by simp)
  | .error _, .ok _ => isFalse (by simp)

/-!
Section: `read_experiment` cross-field consistency checks (lines 482-504)

The pipeline stages before these checks only matter through the key sets of
`properties['common-properties']` and of each entry of
`properties['datapoints']`, so the checks are embedded over those key
lists.  Every value those dictionaries can hold at this point (a non-empty
list of quantity strings, or the non-empty volume-history dictionary) is
truthy in Python, so the source's `dp.get('pressure-rise')` truthiness test
coincides with key membership.
-/

/-- Lines 483-490 of `read_experiment`: `volume` in the common properties
demands `time` in the common properties, and otherwise `volume` in some
datapoint demands `time` in some datapoint. -/
def check_volume_time (cp : List String) (dps : List (List String)) :
    Except PyErr Unit :=
  if cp.contains "volume" && !(cp.contains "time") then
    .error (.keywordError "Time values needed for volume history")
  else if (dps.any fun dp => dp.contains "volume") &&
      !(dps.any fun dp => dp.contains "time") then
    .error (.keywordError "Time values needed for volume history")
  else
    .ok ()

/-- Lines 492-502 of `read_experiment`: the three-disjunct mutual-exclusion
test between `volume` and `pressure-rise`. -/
def check_volume_pressure_rise (cp : List String) (dps : List (List String)) :
    Except PyErr Unit :=
  if (cp.contains "volume" && cp.contains "pressure-rise")
      || (cp.contains "volume" && (dps.any fun dp => dp.contains "pressure-rise"))
      || (cp.contains "pressure-rise" && (dps.any fun dp => dp.contains "volume")) then
    .error (.keywordError "Both volume history and pressure rise cannot be specified")
  else
    .ok ()

/-- The tail of `read_experiment` (lines 482-504): run both consistency
checks in source order; the properties record is returned only when neither
raises. -/
def read_experiment_checks (cp : List String) (dps : List (List String)) :
    Except PyErr Unit := do
  check_volume_time cp dps
  check_volume_pressure_rise cp dps

/-!
Section: `get_reference` (lines 106-165)

The bibliography element is modelled as the result of
`root.find('bibliographyLink')` (`none` when the element is absent), and
the Crossref lookup `habanero.Crossref().works(...)` is an injected
function from the DOI to a lookup outcome.
-/

/-- Digit accumulation of `int(s)`: at least one digit;
anything else raises `ValueError` (modelled as `none`). -/
def digitsToNat : List Char → Option Nat
  | [] => none
  | l =>
    l.foldl
      (fun acc c =>
        match acc with
        | none => none
        | some n => if c.isDigit then some (n * 10 + (c.toNat - 48)) else none)
      (some 0)

/-- Python `int(s)` on a string operand: optional sign followed by digits,
anything else a `ValueError` (modelled as `none`). -/
def pyStrToInt (s : String) : Option Int :=
  match s.data with
  | '-' :: rest => (digitsToNat rest).map (fun n => -(n : Int))
  | '+' :: rest => (digitsToNat rest).map (fun n => (n : Int))
  | l => (digitsToNat l).map (fun n => (n : Int))

/-- The `bibliographyLink` XML element: only its attribute dictionary is
read by `get_reference`. -/
structure BibElem where
  attrib : List (String × String)
deriving Repr, DecidableEq

/-- One entry of the Crossref `author` list: the `given`/`family`/`ORCID`
keys that `get_reference` reads (`none` models an absent key). -/
structure CrossrefAuthor where
  given : Option String
  family : Option String
  orcid : Option String
deriving Repr, DecidableEq

/-- The fields of the Crossref `message` record that `get_reference`
reads.  `publishedPrint`/`publishedOnline` hold the `date-parts` list of
the corresponding date record (`none` when the key is absent or falsy). -/
structure CrossrefWork where
  containerTitle : Option (List String)
  publishedPrint : Option (List (List Int))
  publishedOnline : Option (List (List Int))
  volume : Option String
  page : Option String
  author : Option (List CrossrefAuthor)
deriving Repr, DecidableEq

/-- Outcome of `habanero.Crossref().works(ids=doi)['message']`, the
injected lookup service, including each exception class the source
catches. -/
inductive LookupResult where
  | found : CrossrefWork → LookupResult
  | httpError : LookupResult
  | requestError : LookupResult
  | connectionError : LookupResult
  | unboundLocalError : LookupResult
deriving Repr, DecidableEq

/-- One author entry of the assembled reference dictionary. -/
structure RefAuthor where
  name : String
  orcid : Option String
deriving Repr, DecidableEq

/-- The reference dictionary assembled by `get_reference`; each field is
`none` when the corresponding key was never assigned.  `pages` holds the
raw Crossref `page` value, which the source stores even when it is
`None`. -/
structure Reference where
  doi : Option String := none
  journal : Option String := none
  year : Option Int := none
  volume : Option Int := none
  pages : Option String := none
  authors : Option (List RefAuthor) := none
  citation : Option String := none
deriving Repr, DecidableEq

/-- Lines 148-156: build one author entry.  `' '.join([author['given'],
author['family']])` raises `KeyError` when either key is absent; the ORCID
is added only when truthy (a present but empty string is skipped). -/
def mkRefAuthor (a : CrossrefAuthor) : Except PyErr RefAuthor :=
  match a.given with
  | none => .error (.keyError "given")
  | some g =>
    match a.family with
    | none => .error (.keyError "family")
    | some f =>
      .ok { name := g ++ " " ++ f,
            orcid := match a.orcid with
              | some s => if s = "" then none else some s
              | none => none }

/-- Lines 140-156: populate the DOI-based reference fields from a
successful lookup, with the built-in exceptions the untyped accesses can
raise (`ref.get('container-title')[0]` on an absent key is a `TypeError`,
on an empty list an `IndexError`; both dates absent makes
`ref_year['date-parts']` a `TypeError`; `int(None)` is a `TypeError`). -/
def populate_from_doi (doi : String) (ref : CrossrefWork) :
    Except PyErr Reference := do
  let journal ←
    match ref.containerTitle with
    | none => Except.error PyErr.typeError
    | some ct =>
      match ct.head? with
      | none => Except.error PyErr.indexError
      | some j => Except.ok j
  let yearParts ←
    match ref.publishedPrint with
    | some d => Except.ok d
    | none =>
      match ref.publishedOnline with
      | some d => Except.ok d
      | none => Except.error PyErr.typeError
  let yr ←
    match yearParts.head? with
    | none => Except.error PyErr.indexError
    | some l =>
      match l.head? with
      | none => Except.error PyErr.indexError
      | some y => Except.ok y
  let vol ←
    match ref.volume with
    | none => Except.error PyErr.typeError
    | some s =>
      match pyStrToInt s with
      | none => Except.error PyErr.valueError
      | some v => Except.ok v
  let auths ←
    match ref.author with
    | none => Except.error (PyErr.keyError "author")
    | some l => l.mapM mkRefAuthor
  .ok { doi := some doi, journal := some journal, year := some yr,
        volume := some vol, pages := ref.page, authors := some auths,
        citation := none }

/-- Lines 120-165, `get_reference`.  When the element is absent,
`elem.attrib` is an attribute access on `None` and raises
`AttributeError` (only `KeyError` is caught).  A present DOI triggers the
lookup: an `HTTPError`/`RequestError` outcome reaches
`self._error(...)`, which raises `NameError` (`self` is not defined at
module level); a connectivity failure only warns, leaving the partial
`{doi}` record.  With no DOI the function falls back to the
`preferredKey` attribute, which is itself only warned about when
absent. -/
def get_reference (elem? : Option BibElem) (lookup : String → LookupResult) :
    Except PyErr Reference :=
  match elem? with
  | none => .error .attributeError
  | some elem =>
    match pyGet elem.attrib "doi" with
    | some doi =>
      match lookup doi with
      | .httpError => .error (.nameError "self")
      | .requestError => .error (.nameError "self")
      | .connectionError => .ok { doi := some doi }
      | .unboundLocalError => .ok { doi := some doi }
      | .found ref => populate_from_doi doi ref
    | none => .ok { citation := pyGet elem.attrib "preferredKey" }

/-- A lookup service that is never reached or always unreachable; used for
concrete runs that stay on the non-DOI path. -/
def noNetwork : String → LookupResult := fun _ => .connectionError

/-- The concrete `bibliographyLink` of the spec's fallback scenario: no
`doi`, a `preferredKey` of `Smith2001`. -/
def bibSmith : BibElem := ⟨[("preferredKey", "Smith2001")]⟩

/-- The reference `get_reference` assembles for `bibSmith`. -/
def refSmith : Reference := { citation := some "Smith2001" }

/-!
Section: `get_experiment_kind` (lines 168-199)

The function reads `root.find('experimentType').text` and
`root.find('apparatus/kind').text`; each is modelled as an
`Option (Option String)`: the outer layer is element presence (`find`
returning `None`), the inner layer the element's text.
-/

/-- The `apparatus` sub-dictionary of the experiment-kind properties. -/
structure ApparatusProps where
  kind : String
  institution : String
  facility : String
deriving Repr, DecidableEq

/-- The dictionary returned by `get_experiment_kind`. -/
structure ExperimentKindProps where
  experimentType : String
  apparatus : ApparatusProps
deriving Repr, DecidableEq

/-- The two text fields `get_experiment_kind` reads from the document. -/
structure KindRoot where
  experimentTypeText : Option (Option String)
  apparatusKindText : Option (Option String)
deriving Repr, DecidableEq

/-- Lines 182-199, `get_experiment_kind`.  The apparatus block sits in a
`try` whose bare `except:` catches every exception the block raises — the
`AttributeError` of a missing element, the `TypeError` of a `None` text
concatenated with a string, and also the `NotImplementedError` that the
`else` branch itself raises for an unsupported kind — and replaces each of
them with `MissingElementError('apparatus/kind')`. -/
def get_experiment_kind (root : KindRoot) : Except PyErr ExperimentKindProps :=
  match root.experimentTypeText with
  | none => .error .attributeError
  | some txt =>
    if txt = some "Ignition delay measurement" then
      match (match root.apparatusKindText with
        | none => Except.error PyErr.attributeError
        | some (some kind) =>
          if kind = "shock tube" ∨ kind = "rapid compression machine" then
            Except.ok kind
          else
            Except.error
              (PyErr.notImplemented (kind ++ " experiment not (yet) supported"))
        | some none => Except.error PyErr.typeError) with
      | .ok kind => .ok ⟨"ignition delay", ⟨kind, "", ""⟩⟩
      | .error _ => .error (.missingElement "apparatus/kind")
    else .error (.keywordError "experimentType not ignition delay measurement")

/-!
Section: `get_ignition_type` (lines 277-354)

The `ignitionType` element is modelled by its attribute dictionary
(`none` when the element is absent).
-/

/-- The `ignitionType` XML element: only its attributes are read. -/
structure IgnElem where
  attrib : List (String × String)
deriving Repr, DecidableEq

/-- The ignition dictionary assembled by `get_ignition_type`. -/
structure Ignition where
  type : String
  target : String
deriving Repr, DecidableEq

/-- Lines 291-354, `get_ignition_type`: attribute extraction with
missing-attribute failures, target normalization (`rstrip(';')`, upper-case,
`OHEX`/`CHEX` mapping), the multi-target rejection, the target and type
vocabularies, the explicit not-implemented detection methods, the
`P`/`T` renaming, and the validate-then-reject handling of
concentration-based types. -/
def get_ignition_type (elem? : Option IgnElem) : Except PyErr Ignition :=
  match elem? with
  | none => .error (.missingElement "ignitionType")
  | some elem =>
    match pyGet elem.attrib "target" with
    | none => .error (.missingAttribute "ignitionType target")
    | some tgtRaw =>
      match pyGet elem.attrib "type" with
      | none => .error (.missingAttribute "ignitionType type")
      | some ignType =>
        let ignTarget := pyUpper (pyRstripSemi tgtRaw)
        if pySplitSemiCount ignTarget > 1 then
          .error (.notImplemented "Multiple ignition targets not implemented.")
        else
          let ignTarget :=
            if ignTarget = "OHEX" then "OH*"
            else if ignTarget = "CHEX" then "CH*"
            else ignTarget
          if !(["P", "T", "OH", "OH*", "CH*", "CH"].contains ignTarget) then
            .error (.undefinedKeyword ignTarget)
          else if !(["max", "d/dt max", "baseline max intercept from d/dt",
              "baseline min intercept from d/dt", "concentration",
              "relative concentration"].contains ignType) then
            .error (.undefinedKeyword ignType)
          else if ["baseline max intercept from d/dt",
              "baseline min intercept from d/dt"].contains ignType then
            .error (.notImplemented (ignType ++ " not supported"))
          else
            let ignTarget :=
              if ignTarget = "P" then "pressure"
              else if ignTarget = "T" then "temperature"
              else ignTarget
            if ["concentration", "relative concentration"].contains ignType then
              match pyGet elem.attrib "amount" with
              | none => .error (.missingAttribute "ignitionType amount")
              | some _ =>
                match pyGet elem.attrib "units" with
                | none => .error (.missingAttribute "ignitionType units")
                | some _ =>
                  .error (.notImplemented
                    "concentration ignition delay type not supported")
            else .ok { type := ignType, target := ignTarget }

/-!
Section: `get_datapoints` (lines 357-430)

A `dataGroup` element is modelled by its `property` children (id, name,
units) and its `dataPoint` children (each a list of value elements with a
tag and a text).  A datapoint dictionary maps property names either to the
one-element list of quantity strings built for the primary table
(`PVal.strs`) or to the volume-history dictionary (`PVal.hist`) — the same
two value shapes (list of strings / dict) the Python dictionaries hold.
The numeric `float(...)` conversions of the history rows only feed the
stored `values` pairs, which no claim inspects numerically, so a row value
is modelled by the text it was parsed from.
-/

/-- A `property` child of a `dataGroup`. -/
structure DGProp where
  id : String
  name : String
  units : String
deriving Repr, DecidableEq

/-- A value element inside a `dataPoint`: its tag and its text. -/
structure XVal where
  tag : String
  text : String
deriving Repr, DecidableEq

/-- A `dataGroup` element. -/
structure DataGroup where
  props : List DGProp
  dataPoints : List (List XVal)
deriving Repr, DecidableEq

/-- Lines 404-412: the `{'units': ..., 'column': ...}` dictionaries of the
second data group together with the collected rows (lines 414-423); row
entries keep the text the source passes to `float`, and `none` models the
Python `None` left when no value element matched the tag. -/
structure VolumeHistory where
  timeUnits : String
  volumeUnits : String
  values : List (Option String × Option String)
deriving Repr, DecidableEq

/-- A value of a datapoint dictionary: the one-element quantity-string
list of the primary table, or the attached volume-history dictionary. -/
inductive PVal where
  | strs : List String → PVal
  | hist : VolumeHistory → PVal
deriving Repr, DecidableEq

/-- A datapoint dictionary. -/
abbrev Datapoint := List (String × PVal)

/-- Lines 381-382: the `unit_id` dictionary of the primary data group,
mapping property ids to units. -/
def mkUnitId (g : DataGroup) : List (String × String) :=
  g.props.map fun p => (p.id, p.units)

/-- Lines 384-386: the `property_id` dictionary of the primary data group,
mapping property ids to names, with `ignition delay` renamed to
`ignition-delay`. -/
def mkPropId (g : DataGroup) : List (String × String) :=
  g.props.map fun p =>
    (p.id, if p.name = "ignition delay" then "ignition-delay" else p.name)

/-- Lines 389-396, inner loop: fold the value elements of one `dataPoint`
into a dictionary; a tag without a matching `property` raises `KeyError`,
`Torr` units are normalized, and the entry holds `[text + ' ' + units]`. -/
def parseDataPoint (unitId propId : List (String × String)) (d : Datapoint) :
    List XVal → Except PyErr Datapoint
  | [] => .ok d
  | v :: vs =>
    match pyGet unitId v.tag with
    | none => .error (.keyError v.tag)
    | some u =>
      let u := if u = "Torr" then "torr" else u
      match pyGet propId v.tag with
      | none => .error (.keyError v.tag)
      | some nm =>
        parseDataPoint unitId propId (pySet d nm (.strs [v.text ++ " " ++ u])) vs

/-- Lines 389-396, outer loop: parse every `dataPoint` of the primary
data group in order. -/
def parseDataPoints (unitId propId : List (String × String)) :
    List (List XVal) → Except PyErr (List Datapoint)
  | [] => .ok []
  | dp :: rest => do
    let d ← parseDataPoint unitId propId [] dp
    let ds ← parseDataPoints unitId propId rest
    .ok (d :: ds)

/-- Lines 404-410: scan the second group's properties for the `time` and
`volume` columns, later declarations shadowing earlier ones. -/
def findTimeVolume (props : List DGProp) :
    Option (String × String) × Option (String × String) :=
  props.foldl
    (fun acc p =>
      if p.name = "time" then (some (p.units, p.id), acc.2)
      else if p.name = "volume" then (acc.1, some (p.units, p.id))
      else acc)
    (none, none)

/-- Lines 415-423, one history row: start from `(None, None)` and fill the
slot whose tag matches (the `time` test coming first). -/
def parseHistoryRow (timeTag volumeTag : String) (vals : List XVal) :
    Option String × Option String :=
  vals.foldl
    (fun acc v =>
      if v.tag = timeTag then (some v.text, acc.2)
      else if v.tag = volumeTag then (acc.1, some v.text)
      else acc)
    (none, none)

/-- Lines 371-430, `get_datapoints`.  The apparatus kind text
(`root.find('apparatus/kind').text`) is passed as in
`get_experiment_kind`.  An empty `dataGroups` list makes `dataGroups[0]`
raise `IndexError`.  With exactly two groups the source asserts the
apparatus is a rapid compression machine and that exactly one primary
datapoint exists (`AssertionError` otherwise, `AttributeError` when the
kind element is missing), then requires `time` and `volume` columns (an
absent one leaves `time_dict`/`volume_dict` unbound, a `NameError`), and
attaches the history to the sole datapoint.  More than two groups is
`NotImplementedError`. -/
def get_datapoints (apparatusKindText : Option (Option String))
    (dataGroups : List DataGroup) : Except PyErr (List Datapoint) :=
  match dataGroups with
  | [] => .error .indexError
  | g0 :: _ =>
    match parseDataPoints (mkUnitId g0) (mkPropId g0) g0.dataPoints with
    | .error e => .error e
    | .ok datapoints =>
      if dataGroups.length = 2 then
        match apparatusKindText with
        | none => .error .attributeError
        | some kindText =>
          if kindText ≠ some "rapid compression machine" then
            .error .assertionError
          else if datapoints.length ≠ 1 then .error .assertionError
          else
            let g1 := dataGroups.getD 1 g0
            match findTimeVolume g1.props with
            | (none, _) => .error (.nameError "time_dict")
            | (some _, none) => .error (.nameError "volume_dict")
            | (some (tu, ttag), some (vu, vtag)) =>
              match datapoints with
              | [d0] =>
                let vh : VolumeHistory :=
                  { timeUnits := tu
                    volumeUnits := vu
                    values := g1.dataPoints.map (parseHistoryRow ttag vtag) }
                .ok [pySet d0 "volume-history" (.hist vh)]
              | _ => .error .assertionError
      else if dataGroups.length > 2 then
        .error (.notImplemented "More than two DataGroups not supported.")
      else .ok datapoints

/-- A data group with no columns and no rows, used as the concrete
two-table shock-tube input. -/
def emptyGroup : DataGroup := ⟨[], []⟩

/-- The primary table of the spec's RCM scenario: one ignition-delay
datapoint. -/
def rcmPrimaryGroup : DataGroup :=
  ⟨[⟨"x1", "ignition delay", "ms"⟩, ⟨"x2", "temperature", "K"⟩],
   [[⟨"x1", "1.0"⟩, ⟨"x2", "1000"⟩]]⟩

/-- The second table of the spec's RCM scenario: a two-row volume-time
history. -/
def rcmHistoryGroup : DataGroup :=
  ⟨[⟨"x3", "time", "s"⟩, ⟨"x4", "volume", "cm3"⟩],
   [[⟨"x3", "0.0"⟩, ⟨"x4", "0.5"⟩], [⟨"x3", "0.1"⟩, ⟨"x4", "0.4"⟩]]⟩

/-!
Section: The common-property broadcast of `convert_ReSpecTh_to_ChemKED`
   (lines 541-543)

The loop `properties['datapoints'][idx][prop] =
properties['common-properties'][prop]` assigns Python object references:
each datapoint dictionary receives a reference to the very object the
common-properties dictionary holds.  To make reference semantics
expressible, the property values (the mutable list objects such as
`['1000 kelvin']`) live in an explicit store from addresses to payloads,
and the record's dictionaries bind property names to addresses.
-/

/-- The heap of property-value objects: an address holds the current
contents of one mutable list of quantity strings. -/
def Store := Nat → List String

/-- The record between assembly and broadcast: the common-properties
dictionary and the datapoint dictionaries, each binding property names to
object addresses. -/
structure RecordState where
  commonProps : List (String × Nat)
  datapoints : List (List (String × Nat))

/-- Lines 541-543: for every datapoint, for every common property, assign
`datapoints[idx][prop] = common-properties[prop]` — the address, not a
copy of the payload. -/
def apply_common_properties (r : RecordState) : RecordState :=
  { r with
    datapoints := r.datapoints.map
      (fun dp => r.commonProps.foldl (fun d p => pySet d p.1 p.2) dp) }

/-- The value a dictionary currently presents for a key: dereference its
bound address through the store. -/
def observe (s : Store) (d : List (String × Nat)) (k : String) :
    Option (List String) :=
  (pyGet d k).map s

/-- An in-place mutation of the object at address `a` (e.g.
`lst[0] = ...` or `lst.append(...)` on the referenced list). -/
def mutateAt (s : Store) (a : Nat) (v : List String) : Store :=
  fun x => if x = a then v else s x

/-- An in-place mutation performed through a dictionary's binding for
`k`: mutate the object the binding references (a no-op when the key is
unbound). -/
def mutateThrough (s : Store) (d : List (String × Nat)) (k : String)
    (v : List String) : Store :=
  match pyGet d k with
  | some a => mutateAt s a v
  | none => s

/-- A record whose sole datapoint already binds `temperature` (address 1)
before the broadcast while the common properties bind it to address 0. -/
def recordC9 : RecordState := ⟨[("temperature", 0)], [[("temperature", 1)]]⟩

/-- A store distinguishing the two objects of `recordC9`. -/
def storeC9 : Store := fun a => if a = 0 then ["1000 kelvin"] else ["500 kelvin"]

/-- A record with one common property (`temperature`, address 0) and two
datapoints with no bindings of their own. -/
def recordC2 : RecordState := ⟨[("temperature", 0)], [[], []]⟩

/-- The store before mutation: the shared object holds
`['1000 kelvin']`. -/
def storeC2 : Store := fun _ => ["1000 kelvin"]

/-- C1 — counterexample.  A record in which `volume`, `time` and
`pressure-rise` all appear only inside a datapoint (none of them among the
common properties) passes both consistency checks, so `read_experiment`
returns the record even though `volume` and `pressure-rise` are jointly
present. -/
theorem C1_counterexample :
    read_experiment_checks [] [["volume", "time", "pressure-rise"]] = .ok () := by
  decide

/-- C1 — amended.  The mutual-exclusion check fires (and `read_experiment`
fails with a `KeywordError`) on exactly the joint presences in which at
least one of `volume`/`pressure-rise` lies in the common properties; when
neither key is a common property the mutual-exclusion check passes, whatever
the datapoints contain. -/
theorem C1_volume_pressure_rise_amended (cp : List String)
    (dps : List (List String)) :
    ((cp.contains "volume" = true ∧
        (cp.contains "pressure-rise" = true ∨
          (dps.any fun dp => dp.contains "pressure-rise") = true)) ∨
      (cp.contains "pressure-rise" = true ∧
        (dps.any fun dp => dp.contains "volume") = true) →
      read_experiment_checks cp dps =
          .error (.keywordError "Time values needed for volume history") ∨
        read_experiment_checks cp dps =
          .error (.keywordError
            "Both volume history and pressure rise cannot be specified")) ∧
    (cp.contains "volume" = false → cp.contains "pressure-rise" = false →
      check_volume_pressure_rise cp dps = .ok ()) := by
  unfold read_experiment_checks check_volume_time check_volume_pressure_rise
  generalize cp.contains "volume" = cv
  generalize cp.contains "time" = ct
  generalize cp.contains "pressure-rise" = cpr
  generalize (dps.any fun dp => dp.contains "volume") = dv
  generalize (dps.any fun dp => dp.contains "time") = dt
  generalize (dps.any fun dp => dp.contains "pressure-rise") = dpr
  revert cv ct cpr dv dt dpr
  decide

/-- C1 — witness for the amended theorem at a concrete input: with neither
key in the common properties, the mutual-exclusion check passes even though
both keys sit in the sole datapoint. -/
theorem C1_amended_witness :
    check_volume_pressure_rise [] [["volume", "pressure-rise"]] = .ok () :=
  (C1_volume_pressure_rise_amended [] [["volume", "pressure-rise"]]).2
    (by decide) (by decide)

/-- C4 — counterexample.  `volume` among the common properties with `time`
present only in a datapoint: the claim says the check passes (`time` is
present in some datapoint), but the code fails, because the first branch
compares `volume` in the common pool against `time` in the common pool
only. -/
theorem C4_counterexample :
    read_experiment_checks ["volume"] [["time"]] =
      .error (.keywordError "Time values needed for volume history") := by
  decide

/-- C4 — amended.  The volume/time check is pool-local: it passes exactly
when `volume` in the common properties implies `time` in the common
properties, and `volume` in some datapoint implies `time` in some
datapoint; cross-pool occurrences of `time` do not rescue a `volume` of the
other pool. -/
theorem C4_volume_time_amended (cp : List String) (dps : List (List String)) :
    check_volume_time cp dps = .ok () ↔
      ((cp.contains "volume" = true → cp.contains "time" = true) ∧
        ((dps.any fun dp => dp.contains "volume") = true →
          (dps.any fun dp => dp.contains "time") = true)) := by
  unfold check_volume_time
  generalize cp.contains "volume" = cv
  generalize cp.contains "time" = ct
  generalize (dps.any fun dp => dp.contains "volume") = dv
  generalize (dps.any fun dp => dp.contains "time") = dt
  revert cv ct dv dt
  decide

/-- C4 — witness for the amended theorem: a concrete pool-consistent record
passes the volume/time check. -/
theorem C4_amended_witness :
    check_volume_time ["volume", "time"] [] = .ok () :=
  (C4_volume_time_amended ["volume", "time"] []).mpr (by decide)

/-- Any reference produced by the DOI-lookup success path carries the DOI
and the looked-up fields and never the citation fallback. -/
theorem populate_from_doi_shape (doi : String) (ref : CrossrefWork)
    (r : Reference) (h : populate_from_doi doi ref = .ok r) :
    r.doi = some doi ∧ r.journal.isSome = true ∧ r.citation = none := by
  unfold populate_from_doi at h
  simp only [bind, Except.bind] at h
  repeat' split at h
  all_goals
    try (injection h with h; subst h)
  all_goals
    first
      | (cases h)
      | (exact ⟨rfl, rfl, rfl⟩)

/-- C5 — counterexample.  A `bibliographyLink` element with neither a
`doi` nor a `preferredKey` attribute makes `get_reference` return an
entirely empty reference: the DOI shape is not populated and the citation
fallback is not populated either, refuting both "never neither" and "the
citation fallback is always populated when no DOI is present". -/
theorem C5_counterexample :
    get_reference (some ⟨[]⟩) noNetwork =
      .ok { doi := none, journal := none, year := none, volume := none,
            pages := none, authors := none, citation := none } := rfl

/-- C5 — amended.  On every return of `get_reference` at most one of the
two shapes is populated — a populated citation excludes every DOI-based
field and a present DOI excludes the citation — but on the no-DOI path the
citation fallback is populated exactly when the `preferredKey` attribute is
present, so a record with neither attribute returns with neither shape. -/
theorem C5_reference_shape_amended (elem? : Option BibElem)
    (lookup : String → LookupResult) (r : Reference)
    (h : get_reference elem? lookup = .ok r) :
    (r.citation.isSome = true →
      r.doi = none ∧ r.journal = none ∧ r.year = none ∧ r.volume = none ∧
        r.pages = none ∧ r.authors = none) ∧
    (r.doi.isSome = true → r.citation = none) ∧
    (∀ e, elem? = some e → pyGet e.attrib "doi" = none →
      r.citation = pyGet e.attrib "preferredKey" ∧ r.doi = none ∧
        r.journal = none ∧ r.authors = none) := by
  cases elem? with
  | none => cases h
  | some e =>
    simp only [get_reference] at h
    rcases hdoi : pyGet e.attrib "doi" with _ | doi
    · simp only [hdoi] at h
      injection h with h
      subst h
      refine ⟨?_, ?_, ?_⟩
      · exact fun _ => ⟨rfl, rfl, rfl, rfl, rfl, rfl⟩
      · intro hall
        simp at hall
      · intro e' he' _
        injection he' with he'
        subst he'
        exact ⟨rfl, rfl, rfl, rfl⟩
    · simp only [hdoi] at h
      have hshape : r.doi = some doi ∧ r.citation = none := by
        cases hlk : lookup doi <;> simp only [hlk] at h
        · rcases populate_from_doi_shape doi _ r h with ⟨h1, _, h3⟩
          exact ⟨h1, h3⟩
        all_goals (cases h <;> exact ⟨rfl, rfl⟩)
      refine ⟨?_, ?_, ?_⟩
      · intro hc
        rw [hshape.2] at hc
        simp at hc
      · exact fun _ => hshape.2
      · intro e' he' hne
        injection he' with he'
        subst he'
        rw [hdoi] at hne
        cases hne

/-- C5 — witness for the amended theorem: the `Smith2001` fallback record
populates the citation and, by the amended theorem, none of the DOI-based
fields. -/
theorem C5_amended_witness :
    get_reference (some bibSmith) noNetwork = .ok refSmith ∧
      refSmith.citation = some "Smith2001" ∧ refSmith.doi = none ∧
      refSmith.journal = none ∧ refSmith.authors = none := by
  have h := C5_reference_shape_amended (some bibSmith) noNetwork refSmith rfl
  rcases h.1 rfl with ⟨h1, h2, _, _, _, h6⟩
  exact ⟨rfl, rfl, h1, h2, h6⟩

/-- C10 — confirmed.  With no `bibliographyLink` element in the document,
`get_reference` dereferences `None` and the conversion dies with the raw
built-in `AttributeError`, whatever the lookup service would have
answered; that error is not a `MissingElementError` of the module's own
taxonomy. -/
theorem C10_missing_bibliography (lookup : String → LookupResult) :
    get_reference none lookup = .error .attributeError ∧
      ∀ s, PyErr.attributeError ≠ PyErr.missingElement s :=
  ⟨rfl, fun _ h => PyErr.noConfusion h⟩

/-- C10 — witness: the concrete no-element run fails with
`AttributeError`. -/
theorem C10_missing_bibliography_witness :
    get_reference none noNetwork = .error .attributeError :=
  (C10_missing_bibliography noNetwork).1

/-- C3 — code behavior at the failing input.  An apparatus kind of
`flow reactor` — present but unsupported — produces exactly the same
`MissingElementError('apparatus/kind')` as a missing kind element, because
the bare `except:` swallows the intended `NotImplementedError`; the two
outcomes the claim requires to be distinct are identical. -/
theorem C3_unsupported_kind_behavior :
    get_experiment_kind ⟨some (some "Ignition delay measurement"),
        some (some "flow reactor")⟩ =
      .error (.missingElement "apparatus/kind") ∧
    get_experiment_kind ⟨some (some "Ignition delay measurement"), none⟩ =
      .error (.missingElement "apparatus/kind") := by
  constructor <;> rfl

/-- C7 — confirmed.  For a single-target `ignitionType` with a valid
detection method, the target string is normalized by stripping trailing
semicolons, upper-casing and mapping `OHEX` to `OH*` and `CHEX` to `CH*`;
a normalized target inside `{P, T, OH, OH*, CH*, CH}` is accepted with `P`
renamed to `pressure` and `T` to `temperature` (species symbols kept), and
any normalized target outside that set fails with
`UndefinedKeywordError`. -/
theorem C7_target_normalization (a : List (String × String)) (t n : String)
    (ht : pyGet a "target" = some t)
    (hty : pyGet a "type" = some "max")
    (hn : (if pyUpper (pyRstripSemi t) = "OHEX" then "OH*"
        else if pyUpper (pyRstripSemi t) = "CHEX" then "CH*"
        else pyUpper (pyRstripSemi t)) = n)
    (hsingle : pySplitSemiCount (pyUpper (pyRstripSemi t)) ≤ 1) :
    (["P", "T", "OH", "OH*", "CH*", "CH"].contains n = true →
      get_ignition_type (some ⟨a⟩) =
        .ok { type := "max",
              target := if n = "P" then "pressure"
                else if n = "T" then "temperature" else n }) ∧
    (["P", "T", "OH", "OH*", "CH*", "CH"].contains n = false →
      get_ignition_type (some ⟨a⟩) = .error (.undefinedKeyword n)) := by
  have hgt : ¬ (pySplitSemiCount (pyUpper (pyRstripSemi t)) > 1) := by omega
  constructor
  · intro hc
    have h6 : n = "P" ∨ n = "T" ∨ n = "OH" ∨ n = "OH*" ∨ n = "CH*" ∨ n = "CH" := by
      simpa using hc
    rcases h6 with h | h | h | h | h | h <;> subst h <;>
      simp only [get_ignition_type, ht, hty, if_neg hgt, hn] <;> rfl
  · intro hc
    simp only [get_ignition_type, ht, hty, if_neg hgt, hn, hc, Bool.not_false]
    rfl

/-- C7 — witness: the spec's scenario `target="OHEX"` (written `ohex;` to
exercise the strip and upper-case steps too) with `type="max"` normalizes
to `OH*` and is accepted with that symbol as the target. -/
theorem C7_target_normalization_witness :
    get_ignition_type (some ⟨[("target", "ohex;"), ("type", "max")]⟩) =
      .ok { type := "max", target := "OH*" } :=
  (C7_target_normalization [("target", "ohex;"), ("type", "max")] "ohex;" "OH*"
    rfl rfl rfl (by decide)).1 rfl

/-- C6 — confirmed.  For a concentration-based detection method on an
otherwise valid single-target element, `get_ignition_type` first demands
the `amount` attribute (failing with
`MissingAttributeError('ignitionType amount')`), then the `units`
attribute (failing with `MissingAttributeError('ignitionType units')`),
and only with both present raises the `NotImplementedError`; the
missing-attribute failures take precedence over not-implemented. -/
theorem C6_concentration_validates_then_rejects
    (a : List (String × String)) (t n ty : String)
    (ht : pyGet a "target" = some t)
    (hty : pyGet a "type" = some ty)
    (hconc : ty = "concentration" ∨ ty = "relative concentration")
    (hn : (if pyUpper (pyRstripSemi t) = "OHEX" then "OH*"
        else if pyUpper (pyRstripSemi t) = "CHEX" then "CH*"
        else pyUpper (pyRstripSemi t)) = n)
    (hsingle : pySplitSemiCount (pyUpper (pyRstripSemi t)) ≤ 1)
    (hacc : ["P", "T", "OH", "OH*", "CH*", "CH"].contains n = true) :
    (pyGet a "amount" = none →
      get_ignition_type (some ⟨a⟩) =
        .error (.missingAttribute "ignitionType amount")) ∧
    (∀ x, pyGet a "amount" = some x → pyGet a "units" = none →
      get_ignition_type (some ⟨a⟩) =
        .error (.missingAttribute "ignitionType units")) ∧
    (∀ x y, pyGet a "amount" = some x → pyGet a "units" = some y →
      get_ignition_type (some ⟨a⟩) =
        .error (.notImplemented
          "concentration ignition delay type not supported")) := by
  have hgt : ¬ (pySplitSemiCount (pyUpper (pyRstripSemi t)) > 1) := by omega
  have h6 : n = "P" ∨ n = "T" ∨ n = "OH" ∨ n = "OH*" ∨ n = "CH*" ∨ n = "CH" := by
    simpa using hacc
  refine ⟨fun hx => ?_, fun x hx hy => ?_, fun x y hx hy => ?_⟩ <;>
    rcases hconc with h | h <;> subst h <;>
      rcases h6 with h | h | h | h | h | h <;> subst h <;>
        simp only [get_ignition_type, ht, hty, if_neg hgt, hn, hx] <;>
          first
            | rfl
            | (simp only [hy] ; rfl)

/-- C6 — witness: a concrete `concentration`-type element with no `amount`
attribute fails with `MissingAttributeError('ignitionType amount')`. -/
theorem C6_concentration_witness :
    get_ignition_type (some ⟨[("target", "OH"), ("type", "concentration")]⟩) =
      .error (.missingAttribute "ignitionType amount") :=
  (C6_concentration_validates_then_rejects
    [("target", "OH"), ("type", "concentration")] "OH" "OH" "concentration"
    rfl rfl (Or.inl rfl) rfl (by decide) rfl).1 rfl

/-- Parsing one primary-table `dataPoint` only ever stores quantity-string
values: no entry of the result is a volume-history. -/
theorem parseDataPoint_strs (unitId propId : List (String × String))
    (vs : List XVal) (d d' : Datapoint)
    (hd : ∀ k v, (k, v) ∈ d → ∃ s, v = PVal.strs s)
    (h : parseDataPoint unitId propId d vs = .ok d') :
    ∀ k v, (k, v) ∈ d' → ∃ s, v = PVal.strs s := by
  induction vs generalizing d with
  | nil =>
    simp only [parseDataPoint] at h
    injection h with h
    subst h
    exact hd
  | cons v vs ih =>
    simp only [parseDataPoint] at h
    repeat' split at h
    all_goals first
      | cases h
      | (refine ih _ ?_ h
         intro k w hmem
         simp only [pySet] at hmem
         rcases List.mem_append.mp hmem with hmem | hmem
         · exact hd k w hmem
         · simp only [List.mem_singleton, Prod.mk.injEq] at hmem
           exact ⟨_, hmem.2⟩)

/-- The primary-table parse produces datapoints whose values are all
quantity-string lists. -/
theorem parseDataPoints_strs (unitId propId : List (String × String))
    (rows : List (List XVal)) (ds : List Datapoint)
    (h : parseDataPoints unitId propId rows = .ok ds) :
    ∀ d ∈ ds, ∀ k v, (k, v) ∈ d → ∃ s, v = PVal.strs s := by
  induction rows generalizing ds with
  | nil =>
    simp only [parseDataPoints] at h
    injection h with h
    subst h
    simp
  | cons row rest ih =>
    simp only [parseDataPoints, bind, Except.bind] at h
    repeat' split at h
    · cases h
    · cases h
    · injection h with h
      subst h
      intro d hd
      rcases List.mem_cons.mp hd with hd | hd
      · subst hd
        intro k v hmem
        exact parseDataPoint_strs unitId propId row [] _ (by simp) (by assumption)
          k v hmem
      · exact ih _ (by assumption) d hd

/-- C8 — confirmed.  (1) Whenever `get_datapoints` returns, any datapoint
carrying a volume-history value is the first (and only) datapoint, and this
can happen only with exactly two `dataGroup` tables, a rapid-compression-
machine apparatus, and exactly one primary datapoint.  (2) The same
two-table input on any non-RCM apparatus (a shock tube in particular)
never returns.  (3) More than two `dataGroup` tables never returns, and
whenever the primary table itself parses (as witnessed by the one-group
truncation of the same input returning), the failure is precisely the
`NotImplementedError` — never a silent truncation. -/
theorem C8_volume_history_attachment :
    (∀ ak dgs dps, get_datapoints ak dgs = .ok dps →
      ∀ i dp, dps.get? i = some dp →
        (∃ k vh, (k, PVal.hist vh) ∈ dp) →
        i = 0 ∧ dgs.length = 2 ∧
          ak = some (some "rapid compression machine") ∧ dps.length = 1) ∧
    (∀ ak dgs, dgs.length = 2 →
      ak ≠ some (some "rapid compression machine") →
      ∀ dps, get_datapoints ak dgs ≠ .ok dps) ∧
    (∀ ak dgs, dgs.length > 2 →
      (∀ dps, get_datapoints ak dgs ≠ .ok dps) ∧
      (∀ d0, get_datapoints ak (dgs.take 1) = .ok d0 →
        get_datapoints ak dgs =
          .error (.notImplemented "More than two DataGroups not supported."))) := by
  refine ⟨?_, ?_, ?_⟩
  · intro ak dgs dps h i dp hget hhist
    cases dgs with
    | nil => cases h
    | cons g0 rest =>
      simp only [get_datapoints] at h
      rcases hp : parseDataPoints (mkUnitId g0) (mkPropId g0) g0.dataPoints
          with e | dps0 <;> simp only [hp] at h
      · cases h
      · by_cases h2 : (g0 :: rest).length = 2
        · rw [if_pos h2] at h
          cases ak with
          | none => cases h
          | some kindText =>
            simp only [] at h
            by_cases hk : kindText ≠ some "rapid compression machine"
            · rw [if_pos hk] at h
              cases h
            · rw [if_neg hk] at h
              by_cases hl : dps0.length ≠ 1
              · rw [if_pos hl] at h
                cases h
              · rw [if_neg hl] at h
                rcases hf : findTimeVolume (((g0 :: rest).getD 1 g0).props)
                    with ⟨_ | ⟨tu, ttag⟩, _ | ⟨vu, vtag⟩⟩ <;>
                  simp only [hf] at h <;> try cases h
                rcases dps0 with _ | ⟨d0, _ | ⟨d1, ds⟩⟩
                · cases h
                · injection h with h
                  subst h
                  cases i with
                  | zero =>
                    exact ⟨rfl, h2, congrArg some (not_ne_iff.mp hk), rfl⟩
                  | succ n => simp [List.get?] at hget
                · have := not_ne_iff.mp hl
                  simp at this
        · rw [if_neg h2] at h
          by_cases h3 : (g0 :: rest).length > 2
          · rw [if_pos h3] at h
            cases h
          · rw [if_neg h3] at h
            injection h with h
            subst h
            rcases hhist with ⟨k, vh, hmem⟩
            have hdp : dp ∈ dps0 := List.get?_mem hget
            rcases parseDataPoints_strs _ _ _ _ hp dp hdp k _ hmem with ⟨s, hs⟩
            cases hs
  · intro ak dgs h2 hak dps h
    cases dgs with
    | nil => simp at h2
    | cons g0 rest =>
      simp only [get_datapoints] at h
      rcases hp : parseDataPoints (mkUnitId g0) (mkPropId g0) g0.dataPoints
          with e | dps0 <;> simp only [hp] at h
      · cases h
      · rw [if_pos h2] at h
        cases ak with
        | none => cases h
        | some kindText =>
          simp only [] at h
          by_cases hk : kindText ≠ some "rapid compression machine"
          · rw [if_pos hk] at h
            cases h
          · exact hak (congrArg some (not_ne_iff.mp hk))
  · intro ak dgs hgt
    cases dgs with
    | nil => simp at hgt
    | cons g0 rest =>
      have hne2 : ¬((g0 :: rest).length = 2) := by
        intro hc
        rw [hc] at hgt
        exact lt_irrefl _ hgt
      constructor
      · intro dps h
        simp only [get_datapoints] at h
        rcases hp : parseDataPoints (mkUnitId g0) (mkPropId g0) g0.dataPoints
            with e | dps0 <;> simp only [hp] at h
        · cases h
        · rw [if_neg hne2, if_pos hgt] at h
          cases h
      · intro d0 htake
        simp only [List.take, get_datapoints] at htake
        rcases hp : parseDataPoints (mkUnitId g0) (mkPropId g0) g0.dataPoints
            with e | dps0 <;> simp only [hp] at htake
        · cases htake
        · simp only [get_datapoints, hp, if_neg hne2, if_pos hgt]

/-- C8 — witness: two data groups on a shock-tube apparatus make
`get_datapoints` fail (the source's RCM assertion), so the two-table input
never returns on a shock tube. -/
theorem C8_volume_history_witness :
    get_datapoints (some (some "shock tube")) [emptyGroup, emptyGroup] ≠
      .ok [] :=
  C8_volume_history_attachment.2.1 (some (some "shock tube"))
    [emptyGroup, emptyGroup] rfl (by simp) []

/-- Two data groups on an RCM record with one primary datapoint: that
datapoint gains a `volume-history` entry holding the (time, volume)
rows. -/
theorem get_datapoints_rcm_example :
    get_datapoints (some (some "rapid compression machine"))
        [rcmPrimaryGroup, rcmHistoryGroup] =
      .ok [[("ignition-delay", .strs ["1.0 ms"]),
            ("temperature", .strs ["1000 K"]),
            ("volume-history", .hist ⟨"s", "cm3",
              [(some "0.0", some "0.5"), (some "0.1", some "0.4")]⟩)]] := by
  rfl

/-- Folding a key-lookup step over a list with an arbitrary accumulator
either finds the latest binding or returns the accumulator. -/
theorem pyGet_foldl_acc {α : Type} (k : String) (l : List (String × α)) :
    ∀ acc : Option α,
      l.foldl (fun a p => if p.1 = k then some p.2 else a) acc =
        match l.foldl (fun a p => if p.1 = k then some p.2 else a) none with
        | some v => some v
        | none => acc := by
  induction l with
  | nil => intro acc; rfl
  | cons p l ih =>
    intro acc
    simp only [List.foldl_cons]
    rw [ih (if p.1 = k then some p.2 else acc),
      ih (if p.1 = k then some p.2 else none)]
    rcases hrec : l.foldl (fun a p => if p.1 = k then some p.2 else a) none
        with _ | v
    · by_cases hp : p.1 = k <;> simp [hp, hrec]
    · simp [hrec]

/-- Lookup across an appended dictionary segment: the appended (newer)
bindings shadow the older ones. -/
theorem pyGet_append {α : Type} (d l : List (String × α)) (k : String) :
    pyGet (d ++ l) k =
      match pyGet l k with
      | some v => some v
      | none => pyGet d k := by
  simp only [pyGet, List.foldl_append]
  exact pyGet_foldl_acc k l _

/-- Writing every binding of `l` into `d` with `pySet` is appending
`l`. -/
theorem foldl_pySet_eq_append {α : Type} (l d : List (String × α)) :
    l.foldl (fun d p => pySet d p.1 p.2) d = d ++ l := by
  induction l generalizing d with
  | nil => simp
  | cons p l ih =>
    show l.foldl (fun d p => pySet d p.1 p.2) (pySet d p.1 p.2) = d ++ p :: l
    rw [ih]
    simp [pySet]

/-- C9 — confirmed.  After the broadcast, every datapoint presents the
common-properties value for every common property: the assignment
overwrites any binding the primary data table had put there, so the
observed value equals the common-properties observation under every
store. -/
theorem C9_common_property_overwrites (r : RecordState) (k : String)
    (a : Nat) (s : Store) (hk : pyGet r.commonProps k = some a) :
    ∀ dp ∈ (apply_common_properties r).datapoints,
      observe s dp k = observe s r.commonProps k := by
  intro dp hdp
  simp only [apply_common_properties, List.mem_map] at hdp
  rcases hdp with ⟨dp0, _, rfl⟩
  simp only [observe, foldl_pySet_eq_append, pyGet_append, hk]

/-- C9 — witness: the datapoint of `recordC9` had its own `temperature`
object, yet after the broadcast it presents the common-properties value
`['1000 kelvin']`, not its former `['500 kelvin']`. -/
theorem C9_common_property_overwrites_witness :
    observe storeC9 (((apply_common_properties recordC9).datapoints).getD 0 [])
        "temperature" =
      observe storeC9 recordC9.commonProps "temperature" ∧
    observe storeC9 (((apply_common_properties recordC9).datapoints).getD 0 [])
        "temperature" = some ["1000 kelvin"] := by
  have hmem : (((apply_common_properties recordC9).datapoints).getD 0 []) ∈
      (apply_common_properties recordC9).datapoints := by decide
  have h := C9_common_property_overwrites recordC9 "temperature" 0 storeC9 rfl
    _ hmem
  exact ⟨h, h.trans rfl⟩

/-- C2 — counterexample.  After the broadcast over `recordC2`, an
in-place mutation performed through datapoint 0's `temperature` binding
changes what sibling datapoint 1 presents (from `['1000 kelvin']` to
`['300 kelvin']`): the broadcast did not give datapoint 1 an independent
copy, refuting the claim that a later mutation of one datapoint's value
leaves its siblings unchanged. -/
theorem C2_counterexample :
    observe
        (mutateThrough storeC2
          (((apply_common_properties recordC2).datapoints).getD 0 [])
          "temperature" ["300 kelvin"])
        (((apply_common_properties recordC2).datapoints).getD 1 [])
        "temperature" = some ["300 kelvin"] ∧
    observe storeC2 (((apply_common_properties recordC2).datapoints).getD 1 [])
        "temperature" = some ["1000 kelvin"] := ⟨rfl, rfl⟩

/-- C2 — amended.  The broadcast writes a shared reference, not a copy:
every datapoint's binding for a common property is the very address bound
by common-properties, so an in-place mutation of that one object is
observed identically through every datapoint. -/
theorem C2_broadcast_shares_references (r : RecordState) (k : String)
    (a : Nat) (hk : pyGet r.commonProps k = some a) :
    ∀ dp ∈ (apply_common_properties r).datapoints,
      pyGet dp k = some a ∧
        ∀ (s : Store) (v : List String),
          observe (mutateAt s a v) dp k = some v := by
  intro dp hdp
  simp only [apply_common_properties, List.mem_map] at hdp
  rcases hdp with ⟨dp0, _, rfl⟩
  constructor
  · rw [foldl_pySet_eq_append, pyGet_append, hk]
  · intro s v
    simp only [observe, foldl_pySet_eq_append, pyGet_append, hk, Option.map_some]
    simp [mutateAt]

/-- C2 — witness for the amended theorem: in the concrete two-datapoint
record, datapoint 1 holds the shared address 0, and mutating that object
makes datapoint 1 observe the new payload. -/
theorem C2_broadcast_shares_references_witness :
    pyGet (((apply_common_properties recordC2).datapoints).getD 1 [])
        "temperature" = some 0 ∧
    observe (mutateAt storeC2 0 ["300 kelvin"])
        (((apply_common_properties recordC2).datapoints).getD 1 [])
        "temperature" = some ["300 kelvin"] := by
  have hmem : (((apply_common_properties recordC2).datapoints).getD 1 []) ∈
      (apply_common_properties recordC2).datapoints := by decide
  rcases C2_broadcast_shares_references recordC2 "temperature" 0 rfl _ hmem
    with ⟨h1, h2⟩
  exact ⟨h1, h2 storeC2 ["300 kelvin"]⟩
